import Mathlib

/-!
Verification of `analyze_java_dependencies.py` (java-version-upgrade skill).

The development shallowly embeds the compatibility-analysis core of the
script: the `Dependency` model, the static `COMPATIBILITY_DB` knowledge
base, the version comparator `_compare_versions`, the three checks
(`_check_compatibility`, `_check_removed_modules`, `_get_recommendations`),
the orchestrator `analyze`, the Maven adapter `get_dependencies`, and the
exit-code logic of `main`.

Python strings are Lean `String`s, `None`-able strings are `Option String`,
Python ints are `Int`/`Nat`.  Python truthiness on an optional string
(`if dep.version:`) is `false` exactly for `none` and `some ""`; where the
source relies on it, the embedding models it explicitly.
-/

/-! ## Version comparator (`DependencyAnalyzer._compare_versions`) -/

/--
One step of digit-run extraction: walk the characters, accumulating the
value of the current maximal digit run (`some n`) or no current run
(`none`), and output each completed run.  This embeds
`[int(x) for x in re.findall(r'\d+', v)]` for ASCII digit characters.
-/
def digitRunsAux : List Char → Option Nat → List Nat
  | [], none => []
  | [], some n => [n]
  | c :: cs, acc =>
    if c.isDigit then
      digitRunsAux cs (some (acc.getD 0 * 10 + (c.toNat - 48)))
    else
      match acc with
      | none => digitRunsAux cs none
      | some n => n :: digitRunsAux cs none

/-- The maximal digit runs of a version string, as integers, in order. -/
def digitRuns (s : String) : List Nat :=
  digitRunsAux s.toList none

/--
The `for a, b in zip(parts1, parts2)` loop of `_compare_versions`: the
first pair of unequal integers determines the answer (`some r`), and
`none` means the loop fell through.
-/
def cmpZip : List (Nat × Nat) → Option Int
  | [] => none
  | (a, b) :: rest =>
    if a < b then some (-1)
    else if a > b then some 1
    else cmpZip rest

/--
Comparison of two extracted integer sequences, exactly as in the source:
zip loop first, then the length comparison for the strict-prefix case.
-/
def compareParts (p1 p2 : List Nat) : Int :=
  match cmpZip (p1.zip p2) with
  | some r => r
  | none =>
    if p1.length < p2.length then -1
    else if p1.length > p2.length then 1
    else 0

/--
`DependencyAnalyzer._compare_versions` on two present (non-`None`)
strings.  On actual strings no exception can be raised (`re.findall`
and `int` over digit runs are total), so the `except` branch is
unreachable here.
-/
def compareVersions (v1 v2 : String) : Int :=
  compareParts (digitRuns v1) (digitRuns v2)

/--
`DependencyAnalyzer._compare_versions` including absent (`None`)
arguments: `re.findall` raises `TypeError` on a non-string, which the
bare `except` turns into the return value `0`.
-/
def compareVersionsOpt : Option String → Option String → Int
  | some v1, some v2 => compareVersions v1 v2
  | _, _ => 0

/--
The comparison described by the spec's words: element-wise on the two
integer sequences, the first differing pair decides, and a strict prefix
is smaller than the longer sequence.  Used to check that the code's
zip-then-length algorithm refines this description.
-/
def lexCompareSpec : List Nat → List Nat → Int
  | [], [] => 0
  | [], _ :: _ => -1
  | _ :: _, [] => 1
  | a :: p1, b :: p2 =>
    if a < b then -1
    else if a > b then 1
    else lexCompareSpec p1 p2

/-! ## Dependency model and knowledge base -/

/-- `Dependency`: group, artifact, optional version. -/
structure Dependency where
  group_id : String
  artifact_id : String
  version : Option String
deriving DecidableEq, Repr

/-- `Dependency.full_name`, the identity `"group:artifact"`. -/
def Dependency.full_name (d : Dependency) : String :=
  d.group_id ++ ":" ++ d.artifact_id

/--
`Dependency.__repr__`: the identity, followed by `":version"` when the
version is truthy (present and non-empty).
-/
def depRepr (d : Dependency) : String :=
  match d.version with
  | none => d.full_name
  | some v => if v = "" then d.full_name else d.full_name ++ ":" ++ v

/--
One target version's entry of the knowledge base.  The Python dict's
`get("...", {})` defaults are modelled by empty lists for missing keys.
-/
structure CompatEntry where
  removed_modules : List String
  min_versions : List (String × String)
  recommended_versions : List (String × String)
deriving DecidableEq, Repr

/-- The `"11"` entry of `COMPATIBILITY_DB`. -/
def db11 : CompatEntry where
  removed_modules :=
    [ "javax.xml.bind:jaxb-api"
    , "javax.activation:activation"
    , "javax.xml.ws:jaxws-api"
    , "javax.annotation:javax.annotation-api" ]
  min_versions :=
    [ ("org.springframework.boot:spring-boot-starter-parent", "2.1.0")
    , ("org.springframework:spring-core", "5.1.0")
    , ("org.hibernate:hibernate-core", "5.3.0")
    , ("junit:junit", "4.12")
    , ("org.mockito:mockito-core", "2.23.0") ]
  recommended_versions := []

/-- The `"17"` entry of `COMPATIBILITY_DB`. -/
def db17 : CompatEntry where
  removed_modules := []
  min_versions :=
    [ ("org.springframework.boot:spring-boot-starter-parent", "2.5.0")
    , ("org.springframework:spring-core", "5.3.0")
    , ("org.hibernate:hibernate-core", "5.4.24")
    , ("org.junit.jupiter:junit-jupiter", "5.7.0")
    , ("org.mockito:mockito-core", "3.6.0")
    , ("com.fasterxml.jackson.core:jackson-databind", "2.12.0") ]
  recommended_versions :=
    [ ("org.springframework.boot:spring-boot-starter-parent", "3.0.0")
    , ("jakarta.persistence:jakarta.persistence-api", "3.0.0") ]

/-- The `"21"` entry of `COMPATIBILITY_DB`. -/
def db21 : CompatEntry where
  removed_modules := []
  min_versions :=
    [ ("org.springframework.boot:spring-boot-starter-parent", "3.0.0")
    , ("org.springframework:spring-core", "6.0.0")
    , ("org.hibernate:hibernate-core", "6.1.0")
    , ("org.junit.jupiter:junit-jupiter", "5.9.0")
    , ("org.mockito:mockito-core", "4.0.0")
    , ("com.fasterxml.jackson.core:jackson-databind", "2.14.0") ]
  recommended_versions :=
    [ ("org.springframework.boot:spring-boot-starter-parent", "3.2.0")
    , ("jakarta.persistence:jakarta.persistence-api", "3.1.0") ]

/-- The static `COMPATIBILITY_DB`, keyed by target-version string. -/
def COMPATIBILITY_DB : String → Option CompatEntry
  | "11" => some db11
  | "17" => some db17
  | "21" => some db21
  | _ => none

/-! ## The three checks of the compatibility engine -/

/-- `Issue`, the record appended by `_check_compatibility`. -/
structure Issue where
  dependency : String
  current_version : String
  min_version : String
  severity : String
deriving DecidableEq, Repr

/-- `Recommendation`, the record appended by `_get_recommendations`. -/
structure Recommendation where
  dependency : String
  current_version : String
  recommended_version : String
  reason : String
deriving DecidableEq, Repr

/--
The body of the `_check_compatibility` loop for one dependency:
`if dep.full_name in min_versions` then
`if dep.version and compare(dep.version, min_version) < 0` append an
issue.  The truthiness test `if dep.version` is false for `none` and
for `some ""`.
-/
def min_issue_for (e : CompatEntry) (d : Dependency) : Option Issue :=
  match List.lookup d.full_name e.min_versions, d.version with
  | some m, some v =>
    if v ≠ "" ∧ compareVersions v m < 0 then
      some { dependency := depRepr d, current_version := v
           , min_version := m, severity := "high" }
    else none
  | _, _ => none

/-- `DependencyAnalyzer._check_compatibility`. -/
def check_compatibility (target : String) (deps : List Dependency) : List Issue :=
  match COMPATIBILITY_DB target with
  | none => []
  | some e => deps.filterMap (min_issue_for e)

/--
`DependencyAnalyzer._check_removed_modules`: keep, in knowledge-base
order, each removed module that is not among the project's dependency
identities.
-/
def check_removed_modules (target : String) (deps : List Dependency) : List String :=
  match COMPATIBILITY_DB target with
  | none => []
  | some e =>
    let dep_names := deps.map Dependency.full_name
    e.removed_modules.filter (fun m => !(dep_names.contains m))

/-- `dep.version or "unknown"`: `none` and the empty string are falsy. -/
def orUnknown : Option String → String
  | none => "unknown"
  | some v => if v = "" then "unknown" else v

/--
The body of the `_get_recommendations` loop for one dependency:
`if dep.full_name in recommended` then
`if not dep.version or compare(dep.version, rec_version) < 0` append a
recommendation whose `current_version` is `dep.version or "unknown"`.
-/
def recommendation_for (target : String) (e : CompatEntry) (d : Dependency) :
    Option Recommendation :=
  match List.lookup d.full_name e.recommended_versions with
  | none => none
  | some rv =>
    match d.version with
    | none =>
      some { dependency := d.full_name, current_version := "unknown"
           , recommended_version := rv
           , reason := "Better Java " ++ target ++ " support" }
    | some v =>
      if v = "" then
        some { dependency := d.full_name, current_version := "unknown"
             , recommended_version := rv
             , reason := "Better Java " ++ target ++ " support" }
      else if compareVersions v rv < 0 then
        some { dependency := d.full_name, current_version := v
             , recommended_version := rv
             , reason := "Better Java " ++ target ++ " support" }
      else none

/-- `DependencyAnalyzer._get_recommendations`. -/
def get_recommendations (target : String) (deps : List Dependency) :
    List Recommendation :=
  match COMPATIBILITY_DB target with
  | none => []
  | some e => deps.filterMap (recommendation_for target e)

/-! ## Maven adapter (`MavenAnalyzer.get_dependencies`) -/

/--
One `<dependency>` (or `<parent>`) element of a parsed `pom.xml`: each
coordinate child element may be absent.  (A present-but-empty element has
`text = None` in ElementTree and is modelled as absent text, i.e. `none`.)
-/
structure PomDep where
  groupId : Option String
  artifactId : Option String
  version : Option String
deriving DecidableEq, Repr

/--
A parsed `pom.xml` as far as `get_dependencies` reads it: the optional
`<dependencies>` section and the optional `<parent>` element.
-/
structure Pom where
  dependencies_section : Option (List PomDep)
  parent : Option PomDep
deriving DecidableEq, Repr

/--
The guard `if group is not None and artifact is not None` applied to one
element: a `Dependency` is built only when both coordinates are present.
-/
def pomDepToDependency (pd : PomDep) : Option Dependency :=
  match pd.groupId, pd.artifactId with
  | some g, some a => some { group_id := g, artifact_id := a, version := pd.version }
  | _, _ => none

/-- The direct-dependencies loop of `MavenAnalyzer.get_dependencies`. -/
def maven_direct_dependencies (pom : Pom) : List Dependency :=
  (pom.dependencies_section.getD []).filterMap pomDepToDependency

/--
`MavenAnalyzer.get_dependencies` on a successfully parsed `pom.xml`:
the direct dependencies in order, then the parent appended last when its
group and artifact are present.
-/
def maven_get_dependencies (pom : Pom) : List Dependency :=
  maven_direct_dependencies pom ++
    (match pom.parent with
     | none => []
     | some pd =>
       match pomDepToDependency pd with
       | some d => [d]
       | none => [])

/-! ## Orchestrator (`DependencyAnalyzer.analyze`) and exit code (`main`) -/

/--
`AnalysisResult`: either the error dict
`{error: ..., build_type: None}` returned when no manifest was found, or
the full result dict assembled at the end of `analyze`.
-/
inductive AnalysisResult where
  | err (message : String)
  | ok (build_type current_version target_version : String)
       (total_dependencies : Nat)
       (compatibility_issues : List Issue)
       (removed_modules : List String)
       (recommendations : List Recommendation)
deriving DecidableEq, Repr

/-- `"error" in results`. -/
def AnalysisResult.has_error : AnalysisResult → Bool
  | .err _ => true
  | .ok _ _ _ _ _ _ _ => false

/-- The `build_type` field: `None` in the error result. -/
def AnalysisResult.build_type_of : AnalysisResult → Option String
  | .err _ => none
  | .ok bt _ _ _ _ _ _ => some bt

/-- `results.get("compatibility_issues", [])`. -/
def AnalysisResult.issues_of : AnalysisResult → List Issue
  | .err _ => []
  | .ok _ _ _ _ issues _ _ => issues

/--
The state of the project directory as the two adapters see it: which
manifest files exist, and what each adapter would detect and extract.
-/
structure ProjectDir where
  has_pom : Bool
  has_gradle_build : Bool
  maven_detected_version : String
  maven_dependencies : List Dependency
  gradle_detected_version : String
  gradle_dependencies : List Dependency

/--
`current_version = self.source_version or detected_version`: an absent or
empty override falls back to the detected version.
-/
def effective_current_version (source_version : Option String) (detected : String) :
    String :=
  match source_version with
  | none => detected
  | some s => if s = "" then detected else s

/--
`DependencyAnalyzer.analyze`: the constructor picks Maven when `pom.xml`
exists, else Gradle when a `build.gradle`/`build.gradle.kts` exists, else
no analyzer; `analyze` then either returns the error result or assembles
the full result from the three checks.
-/
def analyze (p : ProjectDir) (source_version : Option String)
    (target_version : String) : AnalysisResult :=
  if p.has_pom then
    AnalysisResult.ok "Maven"
      (effective_current_version source_version p.maven_detected_version)
      target_version
      p.maven_dependencies.length
      (check_compatibility target_version p.maven_dependencies)
      (check_removed_modules target_version p.maven_dependencies)
      (get_recommendations target_version p.maven_dependencies)
  else if p.has_gradle_build then
    AnalysisResult.ok "Gradle"
      (effective_current_version source_version p.gradle_detected_version)
      target_version
      p.gradle_dependencies.length
      (check_compatibility target_version p.gradle_dependencies)
      (check_removed_modules target_version p.gradle_dependencies)
      (get_recommendations target_version p.gradle_dependencies)
  else
    AnalysisResult.err "No Maven (pom.xml) or Gradle (build.gradle) file found"

/--
The tail of `main`: `sys.exit(1)` when the result has an `error` field or
at least one compatibility issue, `sys.exit(0)` otherwise.
-/
def exit_code (r : AnalysisResult) : Nat :=
  match r with
  | .err _ => 1
  | .ok _ _ _ _ issues _ _ => if issues.length > 0 then 1 else 0

/-! ## Lemmas about the comparator -/

/--
Unfolding lemma: comparing two non-empty sequences compares the heads
first and otherwise recurses on the tails (the zip loop and the final
length comparison both step in lockstep).
-/
theorem compareParts_cons (a b : Nat) (p1 p2 : List Nat) :
    compareParts (a :: p1) (b :: p2) =
      if a < b then -1 else if a > b then 1 else compareParts p1 p2 := by
  simp only [compareParts, List.zip, List.zipWith_cons_cons, cmpZip]
  by_cases hab : a < b
  · simp [hab]
  · by_cases hba : a > b
    · simp [hab, hba]
    · simp only [hab, hba, if_false]
      cases h : cmpZip (List.zipWith Prod.mk p1 p2) with
      | some r => rfl
      | none =>
        simp only [List.length_cons, gt_iff_lt, Nat.succ_lt_succ_iff]

/--
The zip-then-length algorithm of `_compare_versions` computes exactly the
element-wise lexicographic comparison with the strict-prefix rule.
-/
theorem compareParts_eq_lex : ∀ p1 p2, compareParts p1 p2 = lexCompareSpec p1 p2
  | [], [] => by simp [compareParts, cmpZip, lexCompareSpec]
  | [], _ :: _ => by simp [compareParts, cmpZip, lexCompareSpec]
  | _ :: _, [] => by simp [compareParts, cmpZip, lexCompareSpec]
  | a :: p1, b :: p2 => by
    rw [compareParts_cons]
    simp only [lexCompareSpec]
    by_cases hab : a < b
    · simp [hab]
    · by_cases hba : a > b
      · simp [hab, hba]
      · simp [hab, hba, compareParts_eq_lex p1 p2]

/-- The lexicographic comparison is reflexive. -/
theorem lexCompareSpec_refl : ∀ p, lexCompareSpec p p = 0
  | [] => rfl
  | a :: p => by simp [lexCompareSpec, lexCompareSpec_refl p]

/-- The lexicographic comparison is antisymmetric. -/
theorem lexCompareSpec_antisymm : ∀ p q, lexCompareSpec p q = -lexCompareSpec q p
  | [], [] => rfl
  | [], _ :: _ => rfl
  | _ :: _, [] => rfl
  | a :: p, b :: q => by
    simp only [lexCompareSpec]
    rcases Nat.lt_trichotomy a b with h | h | h
    · simp [h, Nat.lt_asymm h]
    · subst h
      simp [lexCompareSpec_antisymm p q]
    · simp [h, Nat.lt_asymm h]

/-! ## Claim theorems: the version comparator -/

/--
Claim C5: `_compare_versions` compares the sequences of maximal digit
runs of the two strings element-wise, the sign of the first differing
pair deciding; a strict prefix is smaller than the longer sequence; in
particular `compare("5.1.0", "5.1") = 1`, `compare("2.12.0", "2.12") = 1`
and `compare("5.1.0", "5.1.0") = 0`.
-/
theorem compare_versions_digit_run_lex :
    (∀ v1 v2 : String,
      compareVersions v1 v2 = lexCompareSpec (digitRuns v1) (digitRuns v2)) ∧
    compareVersions "5.1.0" "5.1" = 1 ∧
    compareVersions "2.12.0" "2.12" = 1 ∧
    compareVersions "5.1.0" "5.1.0" = 0 :=
  ⟨fun v1 v2 => compareParts_eq_lex _ _, by decide, by decide, by decide⟩

/--
Claim C9: `_compare_versions` is reflexive (`compare(v, v) = 0`) and
antisymmetric (`compare(a, b) = -compare(b, a)`); this holds for all
string inputs, in particular for the parseable ones.
-/
theorem compare_versions_refl_antisymm :
    (∀ v : String, compareVersions v v = 0) ∧
    (∀ a b : String, compareVersions a b = -compareVersions b a) := by
  constructor
  · intro v
    rw [compareVersions, compareParts_eq_lex, lexCompareSpec_refl]
  · intro a b
    rw [compareVersions, compareVersions, compareParts_eq_lex, compareParts_eq_lex,
      lexCompareSpec_antisymm]

/--
Claim C4, counterexample: the string `"abc"` yields no digit run, yet
`compare("abc", "2.0")` returns `-1` rather than `0` (the empty sequence
is a strict prefix of `[2, 0]`, so the length comparison fires); as a
consequence a malformed declared version does produce a compatibility
Issue against a parseable minimum.
-/
theorem compare_versions_malformed_cex :
    digitRuns "abc" = [] ∧
    compareVersions "abc" "2.0" = -1 ∧
    check_compatibility "17"
      [{ group_id := "com.fasterxml.jackson.core", artifact_id := "jackson-databind"
       , version := some "abc" }] ≠ [] := by
  refine ⟨by decide, by decide, ?_⟩
  decide

/--
Claim C4, amended: the comparator returns `0` without raising when an
input is absent (`None`), or when digit-run extraction yields the empty
sequence for BOTH inputs; when exactly one input has no digit runs the
empty sequence is ordered below the other by the prefix rule, so the
result is not `0`.
-/
theorem compare_versions_malformed_amended :
    (∀ b : Option String,
      compareVersionsOpt none b = 0 ∧ compareVersionsOpt b none = 0) ∧
    (∀ v1 v2 : String, digitRuns v1 = [] → digitRuns v2 = [] →
      compareVersions v1 v2 = 0) := by
  constructor
  · intro b
    cases b <;> exact ⟨rfl, rfl⟩
  · intro v1 v2 h1 h2
    rw [compareVersions, h1, h2]
    rfl

/--
Witness for the amended C4 at concrete inputs: an absent argument and a
pair of digit-free strings both compare as equal.
-/
theorem compare_versions_malformed_amended_witness :
    compareVersionsOpt none (some "2.0") = 0 ∧ compareVersions "abc" "xyz" = 0 :=
  ⟨(compare_versions_malformed_amended.1 (some "2.0")).1,
   compare_versions_malformed_amended.2 "abc" "xyz" (by decide) (by decide)⟩

/-! ## Claim theorems: engine edge cases and orchestrator -/

/--
Claim C7: a target version with no knowledge-base entry makes all three
checks return empty collections, whatever the dependency list holds.
-/
theorem unknown_target_all_empty (t : String) (deps : List Dependency)
    (h : COMPATIBILITY_DB t = none) :
    check_compatibility t deps = [] ∧
    check_removed_modules t deps = [] ∧
    get_recommendations t deps = [] := by
  refine ⟨?_, ?_, ?_⟩ <;>
    simp [check_compatibility, check_removed_modules, get_recommendations, h]

/--
Witness for C7: the target `"12"` is absent from the knowledge base, so
a project that does declare known dependencies still gets no findings.
-/
theorem unknown_target_all_empty_witness :
    check_compatibility "12"
        [{ group_id := "junit", artifact_id := "junit", version := some "3.0" }] = [] ∧
    check_removed_modules "12"
        [{ group_id := "junit", artifact_id := "junit", version := some "3.0" }] = [] ∧
    get_recommendations "12"
        [{ group_id := "junit", artifact_id := "junit", version := some "3.0" }] = [] :=
  unknown_target_all_empty "12"
    [{ group_id := "junit", artifact_id := "junit", version := some "3.0" }] rfl

/--
Claim C6: the exit code is `0` exactly when the result has no `error`
field and an empty issue list, `1` exactly when an `error` field is
present or at least one issue was found, and replacing the
removed-modules and recommendations fields never changes the exit code.
-/
theorem exit_code_spec :
    (∀ r : AnalysisResult,
      exit_code r = 0 ↔ r.has_error = false ∧ r.issues_of = []) ∧
    (∀ r : AnalysisResult,
      exit_code r = 1 ↔ r.has_error = true ∨ r.issues_of ≠ []) ∧
    (∀ bt cv tv n issues rem recs rem2 recs2,
      exit_code (AnalysisResult.ok bt cv tv n issues rem recs) =
        exit_code (AnalysisResult.ok bt cv tv n issues rem2 recs2)) := by
  refine ⟨?_, ?_, ?_⟩
  · intro r
    cases r with
    | err m => simp [exit_code, AnalysisResult.has_error, AnalysisResult.issues_of]
    | ok bt cv tv n issues rem recs =>
      cases issues <;>
        simp [exit_code, AnalysisResult.has_error, AnalysisResult.issues_of]
  · intro r
    cases r with
    | err m => simp [exit_code, AnalysisResult.has_error, AnalysisResult.issues_of]
    | ok bt cv tv n issues rem recs =>
      cases issues <;>
        simp [exit_code, AnalysisResult.has_error, AnalysisResult.issues_of]
  · intro bt cv tv n issues rem recs rem2 recs2
    rfl

/--
Claim C8: when the project directory holds neither a `pom.xml` nor a
`build.gradle`/`build.gradle.kts`, `analyze` returns the error result —
an `error` message with a `None` build type — rather than raising (the
embedding is a total function, so no exception is possible).
-/
theorem no_manifest_error_result (p : ProjectDir) (sv : Option String) (t : String)
    (h1 : p.has_pom = false) (h2 : p.has_gradle_build = false) :
    analyze p sv t =
      AnalysisResult.err "No Maven (pom.xml) or Gradle (build.gradle) file found" ∧
    (analyze p sv t).build_type_of = none ∧
    (analyze p sv t).has_error = true := by
  refine ⟨?_, ?_, ?_⟩ <;>
    simp [analyze, h1, h2, AnalysisResult.build_type_of, AnalysisResult.has_error]

/-- Witness for C8 at a concrete manifest-less project directory. -/
theorem no_manifest_error_result_witness :
    analyze
      { has_pom := false, has_gradle_build := false
      , maven_detected_version := "unknown", maven_dependencies := []
      , gradle_detected_version := "unknown", gradle_dependencies := [] }
      none "17" =
      AnalysisResult.err "No Maven (pom.xml) or Gradle (build.gradle) file found" :=
  (no_manifest_error_result
    { has_pom := false, has_gradle_build := false
    , maven_detected_version := "unknown", maven_dependencies := []
    , gradle_detected_version := "unknown", gradle_dependencies := [] }
    none "17" rfl rfl).1

/--
Claim C10: when the parsed `pom.xml` has a `<parent>` element carrying a
group and artifact, `get_dependencies` returns exactly the direct
dependencies followed by the parent's coordinates as one extra final
entry, so the parent is counted in `total_dependencies` and is a member
of the list handed to the checks.
-/
theorem maven_parent_appended (pom : Pom) (g a : String) (v : Option String)
    (h : pom.parent = some { groupId := some g, artifactId := some a, version := v }) :
    maven_get_dependencies pom =
      maven_direct_dependencies pom ++
        [{ group_id := g, artifact_id := a, version := v }] ∧
    (maven_get_dependencies pom).length =
      (maven_direct_dependencies pom).length + 1 ∧
    ({ group_id := g, artifact_id := a, version := v } : Dependency) ∈
      maven_get_dependencies pom := by
  have hmain : maven_get_dependencies pom =
      maven_direct_dependencies pom ++
        [{ group_id := g, artifact_id := a, version := v }] := by
    simp [maven_get_dependencies, h, pomDepToDependency]
  refine ⟨hmain, ?_, ?_⟩
  · rw [hmain]
    simp
  · rw [hmain]
    simp

/-- Witness for C10 on a concrete pom with one direct dependency and a parent. -/
theorem maven_parent_appended_witness :
    maven_get_dependencies
      { dependencies_section := some
          [{ groupId := some "junit", artifactId := some "junit", version := some "4.12" }]
      , parent := some
          { groupId := some "org.springframework.boot"
          , artifactId := some "spring-boot-starter-parent"
          , version := some "2.5.0" } } =
      maven_direct_dependencies
        { dependencies_section := some
            [{ groupId := some "junit", artifactId := some "junit", version := some "4.12" }]
        , parent := some
            { groupId := some "org.springframework.boot"
            , artifactId := some "spring-boot-starter-parent"
            , version := some "2.5.0" } } ++
        [{ group_id := "org.springframework.boot"
         , artifact_id := "spring-boot-starter-parent", version := some "2.5.0" }] :=
  (maven_parent_appended _ "org.springframework.boot" "spring-boot-starter-parent"
    (some "2.5.0") rfl).1

/-! ## Lemmas about the per-dependency loop bodies -/

/--
Inversion of the `_check_compatibility` loop body: an issue is produced
for a dependency only from a truthy declared version below the looked-up
minimum, and its fields are determined by that data.
-/
theorem min_issue_for_eq_some (e : CompatEntry) (d : Dependency) (i : Issue)
    (h : min_issue_for e d = some i) :
    ∃ v, d.version = some v ∧ v ≠ "" ∧
      List.lookup d.full_name e.min_versions = some i.min_version ∧
      compareVersions v i.min_version < 0 ∧
      i = { dependency := depRepr d, current_version := v
          , min_version := i.min_version, severity := "high" } := by
  unfold min_issue_for at h
  split at h
  · rename_i m v hm hv
    split at h
    · rename_i hcond
      obtain ⟨hne, hcmp⟩ := hcond
      cases h
      exact ⟨v, hv, hne, hm, hcmp, rfl⟩
    · cases h
  · cases h

/-! ## Claim theorems: the three checks -/

/--
Claim C1: for a target known to the knowledge base, a dependency whose
identity is in `min_versions` yields a severity-"high" Issue exactly
when it declares a (truthy) version that compares below the minimum, and
every emitted Issue arises that way — in particular a dependency with no
declared version never produces an Issue.
-/
theorem check_compatibility_min_version_iff :
    (∀ t e deps d v m,
      COMPATIBILITY_DB t = some e →
      d ∈ deps →
      d.version = some v → v ≠ "" →
      List.lookup d.full_name e.min_versions = some m →
      compareVersions v m < 0 →
      ({ dependency := depRepr d, current_version := v
       , min_version := m, severity := "high" } : Issue) ∈
        check_compatibility t deps) ∧
    (∀ t deps i,
      i ∈ check_compatibility t deps →
      i.severity = "high" ∧
      ∃ e d v,
        COMPATIBILITY_DB t = some e ∧ d ∈ deps ∧ d.version = some v ∧ v ≠ "" ∧
        List.lookup d.full_name e.min_versions = some i.min_version ∧
        compareVersions v i.min_version < 0 ∧
        i = { dependency := depRepr d, current_version := v
            , min_version := i.min_version, severity := "high" }) := by
  constructor
  · intro t e deps d v m he hd hv hne hm hcmp
    simp only [check_compatibility, he]
    refine List.mem_filterMap.mpr ⟨d, hd, ?_⟩
    simp [min_issue_for, hm, hv, hne, hcmp]
  · intro t deps i hi
    unfold check_compatibility at hi
    cases he : COMPATIBILITY_DB t with
    | none => rw [he] at hi; simp at hi
    | some e =>
      rw [he] at hi
      obtain ⟨d, hd, hfd⟩ := List.mem_filterMap.mp hi
      obtain ⟨v, hv, hne, hm, hcmp, hieq⟩ := min_issue_for_eq_some e d i hfd
      have hsev : i.severity = "high" := by rw [hieq]
      exact ⟨hsev, e, d, v, rfl, hd, hv, hne, hm, hcmp, hieq⟩

/--
Witness for C1 at a concrete input: for target `"17"`, `spring-core`
declared at `"5.1.0"` against minimum `"5.3.0"` yields the high-severity
Issue.
-/
theorem check_compatibility_min_version_witness :
    ({ dependency := "org.springframework:spring-core:5.1.0"
     , current_version := "5.1.0", min_version := "5.3.0"
     , severity := "high" } : Issue) ∈
      check_compatibility "17"
        [{ group_id := "org.springframework", artifact_id := "spring-core"
         , version := some "5.1.0" }] :=
  check_compatibility_min_version_iff.1 "17" db17
    [{ group_id := "org.springframework", artifact_id := "spring-core"
     , version := some "5.1.0" }]
    { group_id := "org.springframework", artifact_id := "spring-core"
    , version := some "5.1.0" }
    "5.1.0" "5.3.0" rfl (by simp) rfl (by decide) (by decide) (by decide)

/--
Claim C2: for a target known to the knowledge base, an identity appears
in the removed-modules output exactly when it is listed in the knowledge
base's `removed_modules` for that target and is not among the project's
dependency identities.
-/
theorem check_removed_modules_iff (t : String) (e : CompatEntry) (m : String)
    (deps : List Dependency) (he : COMPATIBILITY_DB t = some e) :
    m ∈ check_removed_modules t deps ↔
      m ∈ e.removed_modules ∧ m ∉ deps.map Dependency.full_name := by
  simp [check_removed_modules, he, List.mem_filter]

/--
Witness for C2 at a concrete input: for target `"11"` and a project with
no dependencies, `javax.xml.bind:jaxb-api` is reported; the same project
declaring it explicitly suppresses the report (contrapositive direction
of the same equivalence, shown here on the positive side).
-/
theorem check_removed_modules_witness :
    "javax.xml.bind:jaxb-api" ∈ check_removed_modules "11" [] :=
  (check_removed_modules_iff "11" db11 "javax.xml.bind:jaxb-api" [] rfl).mpr
    ⟨by decide, by decide⟩

/--
Claim C3, counterexample: `jakarta.persistence:jakarta.persistence-api`
is in `recommended_versions` for target `"17"` and the empty project has
no declared version for it, yet `_get_recommendations` — which iterates
over the project's dependencies, not over the knowledge base — emits
nothing for the empty project.
-/
theorem get_recommendations_absent_identity_cex :
    COMPATIBILITY_DB "17" = some db17 ∧
    List.lookup "jakarta.persistence:jakarta.persistence-api"
      db17.recommended_versions = some "3.0.0" ∧
    get_recommendations "17" [] = [] :=
  ⟨rfl, by decide, rfl⟩

/--
Claim C3, amended: only identities that occur among the project's
dependencies are considered; for such a dependency whose identity is in
`recommended_versions` for the target, a Recommendation with the static
reason string `"Better Java <target> support"` is emitted when the
dependency has no truthy declared version or its declared version
compares below the recommended one; the spec's own example for target
`"17"` yields exactly one Recommendation.
-/
theorem get_recommendations_project_scoped :
    (∀ t e deps d rv,
      COMPATIBILITY_DB t = some e →
      d ∈ deps →
      List.lookup d.full_name e.recommended_versions = some rv →
      (d.version = none ∨ d.version = some "" ∨
        (∃ v, d.version = some v ∧ compareVersions v rv < 0)) →
      ({ dependency := d.full_name, current_version := orUnknown d.version
       , recommended_version := rv
       , reason := "Better Java " ++ t ++ " support" } : Recommendation) ∈
        get_recommendations t deps) ∧
    get_recommendations "17"
        [{ group_id := "org.springframework.boot"
         , artifact_id := "spring-boot-starter-parent", version := some "2.5.0" }] =
      [{ dependency := "org.springframework.boot:spring-boot-starter-parent"
       , current_version := "2.5.0", recommended_version := "3.0.0"
       , reason := "Better Java 17 support" }] := by
  constructor
  · intro t e deps d rv he hd hrv hcond
    simp only [get_recommendations, he]
    refine List.mem_filterMap.mpr ⟨d, hd, ?_⟩
    rcases hcond with hnone | hempty | ⟨v, hv, hcmp⟩
    · simp [recommendation_for, hrv, hnone, orUnknown]
    · simp [recommendation_for, hrv, hempty, orUnknown]
    · by_cases hv0 : v = ""
      · subst hv0
        simp [recommendation_for, hrv, hv, orUnknown]
      · simp [recommendation_for, hrv, hv, hv0, hcmp, orUnknown]
  · decide

/--
Witness for the amended C3 at the spec's example: target `"17"`,
`spring-boot-starter-parent` declared at `"2.5.0"`, recommended
`"3.0.0"`.
-/
theorem get_recommendations_project_scoped_witness :
    ({ dependency := "org.springframework.boot:spring-boot-starter-parent"
     , current_version := "2.5.0", recommended_version := "3.0.0"
     , reason := "Better Java 17 support" } : Recommendation) ∈
      get_recommendations "17"
        [{ group_id := "org.springframework.boot"
         , artifact_id := "spring-boot-starter-parent", version := some "2.5.0" }] :=
  get_recommendations_project_scoped.1 "17" db17
    [{ group_id := "org.springframework.boot"
     , artifact_id := "spring-boot-starter-parent", version := some "2.5.0" }]
    { group_id := "org.springframework.boot"
    , artifact_id := "spring-boot-starter-parent", version := some "2.5.0" }
    "3.0.0" rfl (by simp) (by decide)
    (Or.inr (Or.inr ⟨"2.5.0", rfl, by decide⟩))
